import Mathlib

/-!
# Verification of the sds011 particulate-matter sensor driver

A shallow embedding of the protocol engine of the `sds011` Go package:
the wire codec (outbound command encoding, inbound frame validation,
checksum), the measurement decoder, the read-validate retry loop, and
the listen controller's state machine.  Bytes are modelled as `Nat`
values (< 256 where it matters, with `% 256` at the points where Go
truncates to a byte), frames as `List Nat`, fallible operations as
`Option`/`Except`, and the mutable listen state as an explicit state
value threaded through the operations.
-/

namespace Sds011

/-- Inbound packets are exactly 10 bytes (`packetLength` in the source). -/
def packetLength : Nat := 10

/-- Frame header byte (`head` in the source). -/
def head : Nat := 0xaa

/-- Frame tail byte (`tail` in the source). -/
def tail : Nat := 0xab

/-- Response type of a query (measurement) frame (`cmdTypeQuery`). -/
def cmdTypeQuery : Nat := 0xc0

/-- Response type of a general command acknowledgment (`cmdTypeGeneral`). -/
def cmdTypeGeneral : Nat := 0xc5

/-- Command opcodes, as in the source's `command` constants. -/
def modeCommand : Nat := 0x02
def queryCommand : Nat := 0x04
def deviceIDCommand : Nat := 0x05
def sleepWorkCommand : Nat := 0x06
def firmwareVersionCommand : Nat := 0x07
def workingPeriodCommand : Nat := 0x08

/-- `checksum`: sum of the bytes, truncated to the low 8 bits
(`byte(sum & 0xff)` in the source). -/
def checksum (b : List Nat) : Nat := b.sum % 256

/-- `toBytes`: big-endian encoding of a 16-bit unsigned value
(`binary.BigEndian.PutUint16`). -/
def toBytes (u : Nat) : List Nat := [u / 256 % 256, u % 256]

/-- Go's conversion `byte(i)` for a signed integer argument:
the low 8 bits of the two's-complement representation. -/
def byteOfInt (i : Int) : Nat := (i % 256).toNat

/-- `write`: builds the outbound command frame for command bytes `b` and
device id `id`.  The source copies `b` into a fresh 13-byte zero buffer
(`data := make([]byte, 13); copy(data, b)`), then emits
`head, 0xb4, data, toBytes(id), checksum(data ++ toBytes(id)), tail`. -/
def write (id : Nat) (b : List Nat) : List Nat :=
  let data := b.take 13 ++ List.replicate (13 - b.length) 0
  [head, 0xb4] ++ data ++ toBytes id ++ [checksum (data ++ toBytes id), tail]

/-- `validate`: checks an inbound frame against the expected command type
and command id.  Returns `none` for a valid frame and `some msg` with the
source's error message otherwise, in the source's check order. -/
def validate (b : List Nat) (typ : Nat) (cmd : Nat) : Option String :=
  if b.length ≠ packetLength then
    some "sds011: validate: bad packet length"
  else if b.getD 0 0 ≠ head then
    some "sds011: bad header"
  else if b.getD 1 0 ≠ typ then
    some "sds011: incorrect command type"
  else if typ ≠ cmdTypeQuery ∧ b.getD 2 0 ≠ cmd then
    some "sds011: incorrect command ID"
  else if b.getD 9 0 ≠ tail then
    some "sds011: bad tail"
  else if b.getD 8 0 ≠ checksum ((b.drop 2).take 6) then
    some "sds011: bad checksum"
  else
    none

/-- A decoded measurement.  The source stores `float32` values obtained by
dividing the raw 16-bit readings by 10; the protocol's intent (and the
spec's reading) is the fixed-point decimal raw/10, which we model exactly
with rationals. -/
structure Measurement where
  pm25 : ℚ
  pm10 : ℚ
  deriving DecidableEq, Repr

/-- Little-endian 16-bit value from two bytes (`binary.LittleEndian.Uint16`). -/
def leU16 (lo hi : Nat) : Nat := lo + 256 * hi

/-- `unmarshal`: decodes a measurement from a 10-byte query frame.
PM2.5 comes from bytes 2–3 (little-endian) and PM10 from bytes 4–5,
each divided by 10. -/
def unmarshal (b : List Nat) : Except String Measurement :=
  if b.length ≠ packetLength then
    .error "sds011: bad packet length"
  else
    .ok { pm25 := (leU16 (b.getD 2 0) (b.getD 3 0) : ℚ) / 10
          pm10 := (leU16 (b.getD 4 0) (b.getD 5 0) : ℚ) / 10 }

/-- `SetPeriod`: validates the working period and, when it is in range,
produces the frame written to the transport.  `.error` means the
function returned before any I/O; `.ok f` means exactly the frame `f`
was written (the acknowledgment read that follows is not relevant to
the validation behaviour modelled here). -/
def SetPeriod (id : Nat) (minutes : Int) : Except String (List Nat) :=
  if minutes < 0 ∨ minutes > 30 then
    .error "sds011: working period must be in [0, 30]"
  else
    .ok (write id [workingPeriodCommand, 0x01, byteOfInt minutes])

/-- One call to `d.read()` as seen by the retry loop, together with the
wall-clock time at which the loop's deadline guard runs after it.
`result = none` models a read that returned an error (the buffer is Go's
`nil`); `result = some b` models a read that returned the bytes `b`
(which may still fail `validate`).  `elapsed` is `time.Now().Sub(start)`
at the deadline check that follows this read. -/
structure ReadStep where
  result : Option (List Nat)
  elapsed : Nat
  deriving Repr

/-- Outcome of `readAndValidate`: a validated frame with no error, or the
source's `errTimeout` carrying whatever bytes the last read produced
(`none` for a `nil` buffer from a failed read). -/
inductive RVResult where
  | ok (b : List Nat)
  | timeout (last : Option (List Nat))
  deriving DecidableEq, Repr

/-- Whether a read step fails the loop guard `err != nil || validate(b, typ, cmd) != nil`. -/
def stepFails (typ cmd : Nat) (s : ReadStep) : Prop :=
  match s.result with
  | none => True
  | some b => validate b typ cmd ≠ none

instance (typ cmd : Nat) (s : ReadStep) : Decidable (stepFails typ cmd s) := by
  unfold stepFails
  cases s.result <;> infer_instance

/-- `readAndValidate`: the read-retry loop.  The source reads once, then
loops while the read errored or the frame fails `validate`; at each
failed iteration it first checks `time.Now().Sub(start) > d.readTimeout`
and returns `(b, errTimeout)` when the deadline has passed, otherwise
reads again.  The loop is driven here by the (finite) list of read
outcomes the transport produces; `none` means the supplied reads ran out
before the loop exited. -/
def readAndValidate (typ cmd timeout : Nat) : List ReadStep → Option RVResult
  | [] => none
  | s :: rest =>
    match s.result with
    | some b =>
      if validate b typ cmd = none then some (.ok b)
      else if s.elapsed > timeout then some (.timeout (some b))
      else readAndValidate typ cmd timeout rest
    | none =>
      if s.elapsed > timeout then some (.timeout none)
      else readAndValidate typ cmd timeout rest

/-- The default read timeout (`defaultTimeout = 2 * time.Second`), in
milliseconds. -/
def defaultTimeout : Nat := 2000

/-- The listen cancellation channel `d.doneChan`: `nil` (no channel, the
Idle state), `opened` (allocated, not closed), or `closed`. -/
inductive Chan where
  | nil
  | opened
  | closed
  deriving DecidableEq, Repr

/-- `Stop`: under the mutex, returns immediately when `d.doneChan` is nil,
and otherwise closes the channel only if it is not already closed. -/
def Stop : Chan → Chan
  | .nil => .nil
  | .opened => .closed
  | .closed => .closed

/-- Outcome of one `d.sense()` call inside the listen loop: the timeout
error `errTimeout`, some other (fatal) error, or a measurement. -/
inductive SenseOutcome where
  | timeout
  | fatal (e : String)
  | meas (m : Measurement)
  deriving Repr

/-- One iteration of the listen loop: whether a concurrent `Stop` call ran
before this iteration's `select` on `d.doneChan`, and what the
iteration's `d.sense()` call produced. -/
structure ListenIter where
  stopped : Bool
  sense : SenseOutcome
  deriving Repr

/-- The body of `Listen`'s `for` loop, driven by a finite list of
iteration inputs (`none` means the inputs ran out before the loop
exited).  Each iteration first applies any concurrent `Stop`, then runs
the `select`: a closed channel is observed as cancellation, resetting
the channel to nil and returning no error.  Otherwise `d.sense()` runs:
`errTimeout` continues, any other error returns it — without touching
the channel — and a measurement dispatches the handler and continues. -/
def listenLoop : Chan → List ListenIter → Option (Except String Unit × Chan)
  | _, [] => none
  | c, it :: rest =>
    let c' := if it.stopped then Stop c else c
    match c' with
    | .closed => some (.ok (), .nil)
    | c' =>
      match it.sense with
      | .timeout => listenLoop c' rest
      | .fatal e => some (.error e, c')
      | .meas _ => listenLoop c' rest

/-- `Listen`: fails with "already listening" when `d.doneChan` is non-nil,
leaving the state untouched; otherwise allocates the channel and enters
the polling loop. -/
def Listen (c : Chan) (iters : List ListenIter) : Option (Except String Unit × Chan) :=
  match c with
  | .nil => listenLoop .opened iters
  | c => some (.error "sds011: already listening", c)

/-- The device handle state relevant to command encoding: the cached
device id used for every outbound frame (`d.id`, default 0xffff). -/
structure Dev where
  id : Nat
  deriving DecidableEq, Repr

/-- `SetDeviceID`: builds the command bytes (opcode, ten zero bytes from
`make([]byte, 11)`, then the new id big-endian), writes the frame, and
awaits the acknowledgment (`ack`).  Returns the operation's result, the
device state after the call, and the frame written.  The source never
assigns `d.id`. -/
def SetDeviceID (d : Dev) (newId : Nat) (ack : Except String (List Nat)) :
    Except String Unit × Dev × List Nat :=
  let cmd := deviceIDCommand :: (List.replicate 10 0 ++ toBytes newId)
  (match ack with
    | .ok _ => .ok ()
    | .error e => .error e,
   d, write d.id cmd)

/-- The slice `b[3:6]` returned by `GetFirmwareVersion` from a validated
acknowledgment frame. -/
def firmwareBytes (b : List Nat) : List Nat := (b.drop 3).take 3

/-! ## Wire codec lemmas -/

/-- The 13-byte zero-padded data region of an outbound frame. -/
lemma padded_length (b : List Nat) :
    (b.take 13 ++ List.replicate (13 - b.length) 0).length = 13 := by
  simp [List.length_take]
  omega

lemma write_eq (id : Nat) (b : List Nat) :
    write id b =
      [head, 0xb4] ++ (b.take 13 ++ List.replicate (13 - b.length) 0) ++ toBytes id ++
        [checksum ((b.take 13 ++ List.replicate (13 - b.length) 0) ++ toBytes id), tail] := rfl

lemma toBytes_length (u : Nat) : (toBytes u).length = 2 := rfl

lemma write_cons (id : Nat) (b : List Nat) :
    write id b = head :: 0xb4 ::
      (((b.take 13 ++ List.replicate (13 - b.length) 0) ++ toBytes id) ++
        [checksum ((b.take 13 ++ List.replicate (13 - b.length) 0) ++ toBytes id), tail]) := rfl

lemma padded_id_length (id : Nat) (b : List Nat) :
    ((b.take 13 ++ List.replicate (13 - b.length) 0) ++ toBytes id).length = 15 := by
  rw [List.length_append, padded_length, toBytes_length]

lemma write_length (id : Nat) (b : List Nat) : (write id b).length = 19 := by
  rw [write_cons]
  simp only [List.length_cons, List.length_append, List.length_take, List.length_replicate,
    List.length_nil, toBytes_length]
  omega

lemma write_drop2 (id : Nat) (b : List Nat) :
    (write id b).drop 2 =
      ((b.take 13 ++ List.replicate (13 - b.length) 0) ++ toBytes id) ++
        [checksum ((b.take 13 ++ List.replicate (13 - b.length) 0) ++ toBytes id), tail] := rfl

lemma write_checksum_region (id : Nat) (b : List Nat) :
    ((write id b).drop 2).take 15 =
      (b.take 13 ++ List.replicate (13 - b.length) 0) ++ toBytes id := by
  rw [write_drop2]
  exact List.take_left' (padded_id_length id b)

lemma write_region (id : Nat) (b : List Nat) :
    ((write id b).drop 2).take 13 = b.take 13 ++ List.replicate (13 - b.length) 0 := by
  rw [write_drop2,
    List.take_append_of_le_length (by rw [padded_id_length]; decide)]
  exact List.take_left' (padded_length b)

lemma write_drop15 (id : Nat) (b : List Nat) :
    (write id b).drop 15 =
      toBytes id ++
        [checksum ((b.take 13 ++ List.replicate (13 - b.length) 0) ++ toBytes id), tail] := by
  have h : (write id b).drop 15 =
      (((b.take 13 ++ List.replicate (13 - b.length) 0) ++ toBytes id) ++
        [checksum ((b.take 13 ++ List.replicate (13 - b.length) 0) ++ toBytes id), tail]).drop 13 :=
    rfl
  rw [h, List.append_assoc (b.take 13 ++ List.replicate (13 - b.length) 0) (toBytes id)]
  exact List.drop_left' (padded_length b)

lemma write_id_slot (id : Nat) (b : List Nat) :
    ((write id b).drop 15).take 2 = toBytes id := by
  rw [write_drop15]
  exact List.take_left' (toBytes_length id)

lemma write_drop17 (id : Nat) (b : List Nat) :
    (write id b).drop 17 =
      [checksum ((b.take 13 ++ List.replicate (13 - b.length) 0) ++ toBytes id), tail] := by
  have h : (write id b).drop 17 =
      (((b.take 13 ++ List.replicate (13 - b.length) 0) ++ toBytes id) ++
        [checksum ((b.take 13 ++ List.replicate (13 - b.length) 0) ++ toBytes id), tail]).drop 15 :=
    rfl
  rw [h]
  exact List.drop_left' (padded_id_length id b)

/-- C1 counterexample helper: the concrete query frame for the broadcast id. -/
lemma write_query_frame :
    write 0xffff [0x04] =
      [0xaa, 0xb4, 0x04, 0, 0, 0, 0, 0, 0, 0, 0, 0, 0, 0, 0, 0xff, 0xff, 0x02, 0xab] := by
  decide

/-- **C1** (counterexample).  The claim says the outbound frame is 18 bytes
with the tail byte 0xAB at byte 17.  The frame the encoder produces for the
query command and the default device id 0xFFFF has 19 bytes, and its
byte 17 is the checksum 0x02, not 0xAB. -/
theorem write_frame_not_18_bytes :
    (write 0xffff [0x04]).length ≠ 18 ∧ (write 0xffff [0x04]).getD 17 0 ≠ 0xab := by
  decide

/-- **C1** (amended).  For every command byte sequence of length at most 13
and every 16-bit device id, the outbound frame is 19 bytes laid out as:
bytes 0–1 = 0xAA 0xB4; bytes 2–14 = the 13-byte command+payload region
(command id first, zero-padded); bytes 15–16 = the device id big-endian;
byte 17 = the checksum (low 8 bits of the sum) over bytes 2–16;
byte 18 = 0xAB. -/
theorem write_frame_layout (id : Nat) (cmd : List Nat)
    (hid : id < 65536) (hlen : cmd.length ≤ 13) :
    (write id cmd).length = 19 ∧
    (write id cmd).take 2 = [0xaa, 0xb4] ∧
    ((write id cmd).drop 2).take 13 = cmd ++ List.replicate (13 - cmd.length) 0 ∧
    ((write id cmd).drop 15).take 2 = [id / 256, id % 256] ∧
    (write id cmd).drop 17 = [checksum (((write id cmd).drop 2).take 15), 0xab] := by
  refine ⟨write_length id cmd, rfl, ?_, ?_, ?_⟩
  · rw [write_region, List.take_of_length_le hlen]
  · rw [write_id_slot]
    have : id / 256 < 256 := Nat.div_lt_of_lt_mul (by omega)
    simp [toBytes, Nat.mod_eq_of_lt this]
  · rw [write_drop17, write_checksum_region, tail]

/-- A witness for C1's amended layout at the query command and the default
broadcast device id. -/
theorem write_frame_layout_witness :
    (write 0xffff [0x04]).length = 19 ∧
    (write 0xffff [0x04]).take 2 = [0xaa, 0xb4] ∧
    ((write 0xffff [0x04]).drop 2).take 13 = [0x04] ++ List.replicate 12 0 ∧
    ((write 0xffff [0x04]).drop 15).take 2 = [0xff, 0xff] ∧
    (write 0xffff [0x04]).drop 17 = [checksum (((write 0xffff [0x04]).drop 2).take 15), 0xab] :=
  write_frame_layout 0xffff [0x04] (by decide) (by decide)

/-- The full characterisation of a frame accepted by `validate`. -/
lemma validate_none_iff (b : List Nat) (typ cmd : Nat) :
    validate b typ cmd = none ↔
      (b.length = 10 ∧ b.getD 0 0 = 0xaa ∧ b.getD 1 0 = typ ∧
       b.getD 9 0 = 0xab ∧ b.getD 8 0 = checksum ((b.drop 2).take 6) ∧
       (typ ≠ 0xc0 → b.getD 2 0 = cmd)) := by
  unfold validate
  split_ifs with h1 h2 h3 h4 h5 h6 <;>
    simp_all [packetLength, head, tail, cmdTypeQuery]

/-- **C2**.  `validate` accepts exactly the 10-byte frames with head 0xAA,
the expected type byte, tail 0xAB, a correct checksum over bytes 2–7, and
— except for query-type frames — the expected command id echoed in
byte 2; every violation yields an error. -/
theorem validate_ok_iff (b : List Nat) (typ cmd : Nat) :
    validate b typ cmd = none ↔
      (b.length = 10 ∧ b.getD 0 0 = 0xaa ∧ b.getD 1 0 = typ ∧
       b.getD 9 0 = 0xab ∧ b.getD 8 0 = checksum ((b.drop 2).take 6) ∧
       (typ ≠ 0xc0 → b.getD 2 0 = cmd)) :=
  validate_none_iff b typ cmd

/-- **C5**.  For every 10-byte frame, the measurement decoder returns
PM2.5 = (little-endian u16 of bytes 2–3) / 10 and PM10 = (little-endian
u16 of bytes 4–5) / 10; in particular the frame
`[0xAA,0xC0,0x2D,0x00,0xB8,0x00,0x54,0x6F,0xA8,0xAB]` decodes to
PM2.5 = 4.5, PM10 = 18.4. -/
theorem unmarshal_spec (b : List Nat) (h : b.length = 10) :
    unmarshal b = .ok { pm25 := ((b.getD 2 0 : ℚ) + 256 * (b.getD 3 0 : ℚ)) / 10
                        pm10 := ((b.getD 4 0 : ℚ) + 256 * (b.getD 5 0 : ℚ)) / 10 } ∧
    unmarshal [0xaa, 0xc0, 0x2d, 0x00, 0xb8, 0x00, 0x54, 0x6f, 0xa8, 0xab] =
      .ok { pm25 := 4.5, pm10 := 18.4 } := by
  constructor
  · unfold unmarshal
    rw [if_neg (by simp [packetLength, h])]
    simp only [leU16, Except.ok.injEq, Measurement.mk.injEq]
    constructor <;> push_cast <;> ring
  · norm_num [unmarshal, leU16, packetLength, Measurement.mk.injEq]

/-- A witness for C5 at the spec's concrete measurement frame. -/
theorem unmarshal_spec_witness :
    ([0xaa, 0xc0, 0x2d, 0x00, 0xb8, 0x00, 0x54, 0x6f, 0xa8, 0xab] : List Nat).length = 10 ∧
    unmarshal [0xaa, 0xc0, 0x2d, 0x00, 0xb8, 0x00, 0x54, 0x6f, 0xa8, 0xab] =
      .ok { pm25 := 4.5, pm10 := 18.4 } :=
  ⟨by decide,
   (unmarshal_spec [0xaa, 0xc0, 0x2d, 0x00, 0xb8, 0x00, 0x54, 0x6f, 0xa8, 0xab] (by decide)).2⟩

/-- **C6**.  Working periods outside [0, 30] make `SetPeriod` fail
immediately with the validation error and no frame is written; an
in-range period is sent as the working-period command whose 13-byte
command region is the opcode 0x08, the payload `[0x01, minutes]`, and
zero padding. -/
theorem setPeriod_spec (id : Nat) (minutes : Int) :
    ((minutes < 0 ∨ 30 < minutes) →
        SetPeriod id minutes = .error "sds011: working period must be in [0, 30]") ∧
    (0 ≤ minutes → minutes ≤ 30 →
        SetPeriod id minutes = .ok (write id [workingPeriodCommand, 0x01, minutes.toNat]) ∧
        ((write id [workingPeriodCommand, 0x01, minutes.toNat]).drop 2).take 13 =
          [workingPeriodCommand, 0x01, minutes.toNat] ++ List.replicate 10 0) := by
  constructor
  · intro hout
    unfold SetPeriod
    rw [if_pos hout]
  · intro h0 h30
    have hb : byteOfInt minutes = minutes.toNat := by
      unfold byteOfInt
      omega
    refine ⟨?_, ?_⟩
    · unfold SetPeriod
      rw [if_neg (by omega), hb]
    · rw [write_region]
      simp

/-- A witness for C6 at the spec's own failing inputs −1 and 31 and at the
in-range period 5. -/
theorem setPeriod_spec_witness :
    SetPeriod 0xffff (-1) = .error "sds011: working period must be in [0, 30]" ∧
    SetPeriod 0xffff 31 = .error "sds011: working period must be in [0, 30]" ∧
    SetPeriod 0xffff 5 = .ok (write 0xffff [workingPeriodCommand, 0x01, 5]) :=
  ⟨(setPeriod_spec 0xffff (-1)).1 (by decide),
   (setPeriod_spec 0xffff 31).1 (by decide),
   ((setPeriod_spec 0xffff 5).2 (by decide) (by decide)).1⟩

/-! ## Read-validate loop lemmas -/

lemma stepFails_some {typ cmd : Nat} {s : ReadStep} {b : List Nat}
    (hr : s.result = some b) : stepFails typ cmd s ↔ validate b typ cmd ≠ none := by
  unfold stepFails
  rw [hr]

lemma readAndValidate_cons_fail (typ cmd timeout : Nat) (s : ReadStep) (rest : List ReadStep)
    (hf : stepFails typ cmd s) (ht : s.elapsed ≤ timeout) :
    readAndValidate typ cmd timeout (s :: rest) = readAndValidate typ cmd timeout rest := by
  rcases s with ⟨r, t⟩
  cases r with
  | none =>
    simp only [readAndValidate]
    rw [if_neg (Nat.not_lt.mpr ht)]
  | some b =>
    have hv : validate b typ cmd ≠ none := (stepFails_some rfl).mp hf
    simp only [readAndValidate]
    rw [if_neg hv, if_neg (Nat.not_lt.mpr ht)]

lemma readAndValidate_skip (typ cmd timeout : Nat) (pre rest : List ReadStep)
    (hpre : ∀ p ∈ pre, stepFails typ cmd p ∧ p.elapsed ≤ timeout) :
    readAndValidate typ cmd timeout (pre ++ rest) = readAndValidate typ cmd timeout rest := by
  induction pre with
  | nil => rfl
  | cons p pre ih =>
    rw [List.cons_append,
      readAndValidate_cons_fail typ cmd timeout p _ (hpre p (by simp)).1 (hpre p (by simp)).2]
    exact ih fun q hq => hpre q (by simp [hq])

lemma readAndValidate_cons_ok (typ cmd timeout : Nat) (s : ReadStep) (rest : List ReadStep)
    (b : List Nat) (hr : s.result = some b) (hv : validate b typ cmd = none) :
    readAndValidate typ cmd timeout (s :: rest) = some (.ok b) := by
  rcases s with ⟨r, t⟩
  simp only at hr
  subst hr
  simp only [readAndValidate]
  rw [if_pos hv]

lemma readAndValidate_cons_timeout (typ cmd timeout : Nat) (s : ReadStep) (rest : List ReadStep)
    (hf : stepFails typ cmd s) (ht : timeout < s.elapsed) :
    readAndValidate typ cmd timeout (s :: rest) = some (.timeout s.result) := by
  rcases s with ⟨r, t⟩
  cases r with
  | none =>
    simp only [readAndValidate]
    rw [if_pos ht]
  | some b =>
    have hv : validate b typ cmd ≠ none := (stepFails_some rfl).mp hf
    simp only [readAndValidate]
    rw [if_neg hv, if_pos ht]

/-- **C3**.  Driving the read-retry loop (whose configured deadline
defaults to 2 seconds) past any run of reads that error or fail
validation within the deadline: if the next read also fails the guard and
the wall clock has passed the deadline, the loop returns the timeout
error together with whatever the last read produced; if the next read
yields a frame that passes `validate`, that frame is returned with no
error. -/
theorem readAndValidate_spec (typ cmd timeout : Nat) (pre : List ReadStep) (s : ReadStep)
    (rest : List ReadStep)
    (hpre : ∀ p ∈ pre, stepFails typ cmd p ∧ p.elapsed ≤ timeout) :
    defaultTimeout = 2000 ∧
    (stepFails typ cmd s → timeout < s.elapsed →
      readAndValidate typ cmd timeout (pre ++ s :: rest) = some (.timeout s.result)) ∧
    (∀ b, s.result = some b → validate b typ cmd = none →
      readAndValidate typ cmd timeout (pre ++ s :: rest) = some (.ok b)) := by
  refine ⟨rfl, ?_, ?_⟩
  · intro hf ht
    rw [readAndValidate_skip typ cmd timeout pre _ hpre]
    exact readAndValidate_cons_timeout typ cmd timeout s rest hf ht
  · intro b hr hv
    rw [readAndValidate_skip typ cmd timeout pre _ hpre]
    exact readAndValidate_cons_ok typ cmd timeout s rest b hr hv

/-- A witness for C3: one failed read at 100 ms followed by a valid query
frame at 200 ms, against the default 2000 ms deadline. -/
theorem readAndValidate_spec_witness :
    readAndValidate cmdTypeQuery queryCommand defaultTimeout
        ([⟨none, 100⟩] ++ ⟨some [0xaa, 0xc0, 0x2d, 0x00, 0xb8, 0x00, 0x54, 0x6f, 0xa8, 0xab],
          200⟩ :: []) =
      some (.ok [0xaa, 0xc0, 0x2d, 0x00, 0xb8, 0x00, 0x54, 0x6f, 0xa8, 0xab]) :=
  (readAndValidate_spec cmdTypeQuery queryCommand defaultTimeout [⟨none, 100⟩]
      ⟨some [0xaa, 0xc0, 0x2d, 0x00, 0xb8, 0x00, 0x54, 0x6f, 0xa8, 0xab], 200⟩ []
      (by decide)).2.2 _ rfl (by decide)

lemma valid_frame_facts {b : List Nat} {typ cmd : Nat} (hv : validate b typ cmd = none) :
    b.length = 10 ∧ (∃ m, unmarshal b = .ok m) ∧ (firmwareBytes b).length = 3 := by
  have hlen := ((validate_none_iff b typ cmd).mp hv).1
  have hu : unmarshal b =
      .ok { pm25 := (leU16 (b.getD 2 0) (b.getD 3 0) : ℚ) / 10
            pm10 := (leU16 (b.getD 4 0) (b.getD 5 0) : ℚ) / 10 } := by
    unfold unmarshal
    rw [if_neg (by simp [packetLength, hlen])]
  exact ⟨hlen, ⟨_, hu⟩, by simp [firmwareBytes, hlen]⟩

/-- **C10**.  Whenever the read-retry loop returns a frame with no error,
that frame passes `validate` for the requested type and command and hence
has exactly 10 bytes; consequently the measurement decoder cannot hit its
bad-packet-length branch on it, and the 3-byte firmware slice `b[3:6]` is
in bounds. -/
theorem readAndValidate_ok_sound (typ cmd timeout : Nat) (steps : List ReadStep) (b : List Nat)
    (h : readAndValidate typ cmd timeout steps = some (.ok b)) :
    validate b typ cmd = none ∧ b.length = 10 ∧
      (∃ m, unmarshal b = .ok m) ∧ (firmwareBytes b).length = 3 := by
  have hv : validate b typ cmd = none := by
    induction steps with
    | nil => simp [readAndValidate] at h
    | cons s rest ih =>
      rcases s with ⟨r, t⟩
      cases r with
      | none =>
        simp only [readAndValidate] at h
        split_ifs at h
        · simp at h
        · exact ih h
      | some b' =>
        simp only [readAndValidate] at h
        split_ifs at h with h1 h2
        · simp only [Option.some.injEq, RVResult.ok.injEq] at h
          exact h ▸ h1
        · simp at h
        · exact ih h
  exact ⟨hv, valid_frame_facts hv⟩

/-- A witness for C10 at a valid firmware-version acknowledgment frame
returned on the loop's first read. -/
theorem readAndValidate_ok_sound_witness :
    validate [0xaa, 0xc5, 0x07, 0x01, 0x02, 0x03, 0x00, 0x00, 0x0d, 0xab]
        cmdTypeGeneral firmwareVersionCommand = none ∧
    ([0xaa, 0xc5, 0x07, 0x01, 0x02, 0x03, 0x00, 0x00, 0x0d, 0xab] : List Nat).length = 10 ∧
    (∃ m, unmarshal [0xaa, 0xc5, 0x07, 0x01, 0x02, 0x03, 0x00, 0x00, 0x0d, 0xab] = .ok m) ∧
    (firmwareBytes [0xaa, 0xc5, 0x07, 0x01, 0x02, 0x03, 0x00, 0x00, 0x0d, 0xab]).length = 3 :=
  readAndValidate_ok_sound cmdTypeGeneral firmwareVersionCommand defaultTimeout
    [⟨some [0xaa, 0xc5, 0x07, 0x01, 0x02, 0x03, 0x00, 0x00, 0x0d, 0xab], 0⟩]
    [0xaa, 0xc5, 0x07, 0x01, 0x02, 0x03, 0x00, 0x00, 0x0d, 0xab] (by decide)

/-! ## Listen controller theorems -/

/-- **C4** (the code contradicts the claim).  When an iteration's sense
step fails with a non-timeout error, the loop returns that error but
leaves the cancellation channel allocated (`Chan.opened`, not
`Chan.nil`), so a subsequent `Listen` call fails with "already
listening" instead of succeeding. -/
theorem listen_fatal_leaves_state :
    listenLoop Chan.opened [⟨false, SenseOutcome.fatal "sds011: read failed"⟩] =
      some (Except.error "sds011: read failed", Chan.opened) ∧
    Listen Chan.nil [⟨false, SenseOutcome.fatal "sds011: read failed"⟩] =
      some (Except.error "sds011: read failed", Chan.opened) ∧
    Listen Chan.opened [] = some (Except.error "sds011: already listening", Chan.opened) :=
  ⟨rfl, rfl, rfl⟩

/-- **C7**.  Calling `Listen` while the cancellation channel is present
(open or already closed) fails immediately with the "already listening"
error and leaves the state untouched. -/
theorem listen_already_listening (c : Chan) (iters : List ListenIter) (h : c ≠ Chan.nil) :
    Listen c iters = some (.error "sds011: already listening", c) := by
  cases c with
  | nil => exact absurd rfl h
  | opened => rfl
  | closed => rfl

/-- A witness for C7: a second `Listen` call while the channel is open. -/
theorem listen_already_listening_witness :
    Chan.opened ≠ Chan.nil ∧
    Listen Chan.opened [] = some (.error "sds011: already listening", Chan.opened) :=
  ⟨by decide, listen_already_listening Chan.opened [] (by decide)⟩

/-- **C8**.  `Stop` is idempotent: on an idle handle it changes nothing;
on an open channel it closes it; on an already-closed channel it never
closes again; and two consecutive `Stop` calls always equal one. -/
theorem stop_idempotent :
    Stop Chan.nil = Chan.nil ∧ Stop Chan.opened = Chan.closed ∧
    Stop Chan.closed = Chan.closed ∧ ∀ c, Stop (Stop c) = Stop c := by
  refine ⟨rfl, rfl, rfl, fun c => ?_⟩
  cases c <;> rfl

/-- **C9**.  `SetDeviceID` leaves the handle's cached device id unchanged
whether the acknowledgment succeeds or fails, so every subsequent
outbound frame still carries the old id in its device-id bytes 15–16. -/
theorem setDeviceID_keeps_cached_id (d : Dev) (newId : Nat) (ack : Except String (List Nat)) :
    (SetDeviceID d newId ack).2.1 = d ∧
    ∀ cmd, ((write (SetDeviceID d newId ack).2.1.id cmd).drop 15).take 2 = toBytes d.id :=
  ⟨rfl, fun cmd => write_id_slot d.id cmd⟩

end Sds011
